import Mathlib

/-!
Verification of the AI Venture Architect repository.

Part I embeds the workflow-orchestration engine described in the design
document (ARCH/spec).  The engine implementation itself is not present in
the repository snapshot, so every definition in Part I carries a
`Modelled from the spec:` doc comment and is a faithful transcription of
the corresponding contract in the specification text.

Part II embeds the two React components that are present as source
(`HybridSearch.tsx` and `IdeaCanvas.tsx`) and proves the claims about
their pure helper functions.
-/

namespace Engine

/-- Modelled from the spec: the fixed node enum of the Graph Definition
(§3): Research, Competitor, Ideation, Business, Tech, Validation, Export,
plus the synthetic Start node.  The two terminals Completed/Aborted are
represented separately as `Target`s, not as nodes a run can occupy. -/
inductive Node where
  | Start
  | Research
  | Competitor
  | Ideation
  | Business
  | Tech
  | Validation
  | Export
deriving DecidableEq

/-- Modelled from the spec: outcome classes keying graph edges (§3). -/
inductive OutcomeClass where
  | success
  | insufficient_evidence
  | low_confidence
  | guardrail_breach
  | transient_failure
deriving DecidableEq

/-- Modelled from the spec: the target of a graph edge, either another
node or one of the two terminals Completed/Aborted (§3). -/
inductive Target where
  | node (n : Node)
  | Completed
  | Aborted
deriving DecidableEq

/-- Modelled from the spec: human-readable node names used in terminal
reason strings such as loop_exhausted:Validation (§8 Scenario C/D). -/
def nodeName : Node → String
  | Node.Start => "Start"
  | Node.Research => "Research"
  | Node.Competitor => "Competitor"
  | Node.Ideation => "Ideation"
  | Node.Business => "Business"
  | Node.Tech => "Tech"
  | Node.Validation => "Validation"
  | Node.Export => "Export"

/-- Modelled from the spec: the canonical success ordering of nodes (§3):
Start, Research, Competitor, Ideation, Business, Tech, Validation, Export,
with Export's success edge ending at the Completed terminal (§4.4 rule 4). -/
def nextNode : Node → Target
  | Node.Start => Target.node Node.Research
  | Node.Research => Target.node Node.Competitor
  | Node.Competitor => Target.node Node.Ideation
  | Node.Ideation => Target.node Node.Business
  | Node.Business => Target.node Node.Tech
  | Node.Tech => Target.node Node.Validation
  | Node.Validation => Target.node Node.Export
  | Node.Export => Target.Completed

/-- Modelled from the spec: the Graph Definition edge table
`resolve(fromNode, outcomeClass) → toNode` (§4.1): success edges follow
the canonical order; insufficient_evidence edges return to Research by
convention (§4.4 rule 2); low_confidence edges loop back to the same node
for regeneration (§4.4 rule 3); guardrail_breach edges are fatal and
route to Aborted; transient_failure is handed to the Retry/Backoff
Controller, which re-invokes the same node (§4.4 rule 1). -/
def resolve (n : Node) : OutcomeClass → Target
  | OutcomeClass.success => nextNode n
  | OutcomeClass.insufficient_evidence => Target.node Node.Research
  | OutcomeClass.low_confidence => Target.node n
  | OutcomeClass.guardrail_breach => Target.Aborted
  | OutcomeClass.transient_failure => Target.node n

/-- Modelled from the spec: one evidence item of Run State (§3), carrying
a source reference, a recency timestamp, and the node that produced it
(used by the facts-first check, which needs evidence attributed to the
Research node). -/
structure EvidenceItem where
  source : String
  recency : Nat
  attributedTo : Node
deriving DecidableEq

/-- Modelled from the spec: the Run State slots the engine consults (§3):
the ordered evidence sequence, per-node intermediate results
(last-write overwrites), per-node confidence, and the set of triggered
guardrail flag names. -/
structure RunState where
  evidence : List EvidenceItem
  intermediate : Node → Option String
  confidence : Node → Option ℚ
  guardrailFlags : List String

/-- Modelled from the spec: the initial, empty Run State. -/
def RunState.init : RunState :=
  { evidence := []
    intermediate := fun _ => none
    confidence := fun _ => none
    guardrailFlags := [] }

/-- Modelled from the spec: a patch merged into Run State by `apply`
(§4.2): new evidence appended, intermediate result set, confidence set,
plus any stage-reported safety flags recorded into guardrail_flags. -/
structure Patch where
  newEvidence : List EvidenceItem
  resultFor : Option (Node × String)
  confidenceFor : Option (Node × ℚ)
  flags : List String

/-- Modelled from the spec: merging a patch into a Run State (§4.2):
evidence is appended, the intermediate result and confidence entries are
overwritten for their node, flags are accumulated. -/
def mergePatch (st : RunState) (p : Patch) : RunState :=
  { evidence := st.evidence ++ p.newEvidence
    intermediate :=
      match p.resultFor with
      | none => st.intermediate
      | some (n, r) => Function.update st.intermediate n (some r)
    confidence :=
      match p.confidenceFor with
      | none => st.confidence
      | some (n, c) => Function.update st.confidence n (some c)
    guardrailFlags := st.guardrailFlags ++ p.flags }

/-- Modelled from the spec: the Run State Store error for a write against
a stale version (§4.2). -/
inductive StoreError where
  | StaleRun
deriving DecidableEq

/-- Modelled from the spec: the versioned Run State Store (§4.2, §9):
Run State is an immutable value with a version number, and mutation
produces a new version via `apply`. -/
structure Store where
  state : RunState
  version : Nat

/-- Modelled from the spec: the store's only mutator (§4.2).  The caller
presents the version its patch was computed against; the write succeeds
only when that version is the store's current version, otherwise it
fails with StaleRun and no new store value is produced. -/
def Store.apply (s : Store) (baseVersion : Nat) (p : Patch) :
    Except StoreError Store :=
  if baseVersion = s.version then
    Except.ok { state := mergePatch s.state p, version := s.version + 1 }
  else
    Except.error StoreError.StaleRun

/-- Modelled from the spec: the tagged result of a single stage
invocation (§4.3).  A stage that exceeds its wall-clock timeout is
reported as TransientFailure with cause timeout, so no separate timeout
variant exists. -/
inductive Outcome where
  | Success (result : String) (confidence : ℚ) (evidence : List EvidenceItem)
      (safetyFlags : List String)
  | InsufficientEvidence (gap : String)
  | LowConfidence (score threshold : ℚ)
  | TransientFailure (cause : String)

/-- Modelled from the spec: the outcome class of an Outcome, used to key
the Graph Definition's edge table (§3). -/
def Outcome.toClass : Outcome → OutcomeClass
  | Outcome.Success _ _ _ _ => OutcomeClass.success
  | Outcome.InsufficientEvidence _ => OutcomeClass.insufficient_evidence
  | Outcome.LowConfidence _ _ => OutcomeClass.low_confidence
  | Outcome.TransientFailure _ => OutcomeClass.transient_failure

/-- Modelled from the spec: fatal-defect errors (§7): UnknownTransition
is a graph-configuration error, FactsFirstViolation a facts-first
ordering violation; both terminate the run as Failed, not Aborted. -/
inductive DefectError where
  | UnknownTransition
  | FactsFirstViolation
deriving DecidableEq

/-- Modelled from the spec: the generation-oriented stages guarded by the
facts-first constraint (§4.3): Ideation, Business, Tech and Validation. -/
def generationNodes : List Node :=
  [Node.Ideation, Node.Business, Node.Tech, Node.Validation]

/-- Modelled from the spec: whether the run state already contains at
least one evidence item attributed to the Research node (§4.3). -/
def factsFirstOk (st : RunState) : Bool :=
  st.evidence.any (fun e => e.attributedTo = Node.Research)

/-- Modelled from the spec: the Stage Executor (§4.3).  Stage domain
logic is an opaque external collaborator, so the outcome the stage would
produce is a parameter; the Executor's own responsibility modelled here
is the facts-first precondition check, raising FactsFirstViolation when
a generation stage is invoked with no Research-attributed evidence. -/
def invoke (n : Node) (st : RunState) (stageOutcome : Outcome) :
    Except DefectError Outcome :=
  if n ∈ generationNodes ∧ ¬ factsFirstOk st then
    Except.error DefectError.FactsFirstViolation
  else
    Except.ok stageOutcome

/-- Modelled from the spec: guardrail policy configuration (§6) together
with budget and backoff configuration (§4.6, §4.7). -/
structure Config where
  minSourceDiversity : Nat
  recencyWindow : Nat
  maxLoopIterations : Nat
  maxRetries : Nat
  runBudget : Nat
  backoffBase : ℚ
  jitterFraction : ℚ
  maxDelay : ℚ

/-- Modelled from the spec: the Guardrail Monitor's verdict (§4.5). -/
inductive GuardrailVerdict where
  | pass
  | breach (reason : String)
deriving DecidableEq

/-- Modelled from the spec: the Guardrail Monitor (§4.5), run after every
successful stage outcome.  Each check is independently sufficient to
breach: source-diversity quota (evidence from fewer than
minSourceDiversity distinct sources), recency gate (no evidence within
the freshness window ending at `now`), and any stage-reported safety
flag.  The breach reason records the specific guardrail that triggered. -/
def evaluate (cfg : Config) (now : Nat) (st : RunState) : GuardrailVerdict :=
  if (st.evidence.map (fun e => e.source)).dedup.length < cfg.minSourceDiversity then
    GuardrailVerdict.breach "source_diversity"
  else if ¬ st.evidence.any (fun e => now - e.recency ≤ cfg.recencyWindow) then
    GuardrailVerdict.breach "recency"
  else if st.guardrailFlags ≠ [] then
    GuardrailVerdict.breach "safety_flag"
  else
    GuardrailVerdict.pass

/-- Modelled from the spec: the Retry/Backoff Controller's action (§4.6). -/
inductive RetryAction where
  | retryAfter (delay : ℚ)
  | escalateToAbort
deriving DecidableEq

/-- Modelled from the spec: the exponential-backoff growth factor,
doubling once per previous attempt (§4.6). -/
def backoffFactor : Nat → ℚ
  | 0 => 1
  | n + 1 => 2 * backoffFactor n

/-- Modelled from the spec: the Retry/Backoff Controller (§4.6): once the
per-node attempt count would exceed the configured maximum it escalates
to abort; otherwise it computes the exponential-backoff delay with
jitter, capped at the configured maximum delay. -/
def onTransientFailure (cfg : Config) (attempt : Nat) : RetryAction :=
  if attempt < cfg.maxRetries then
    RetryAction.retryAfter
      (min (cfg.backoffBase * backoffFactor attempt * (1 + cfg.jitterFraction))
        cfg.maxDelay)
  else
    RetryAction.escalateToAbort

/-- Modelled from the spec: run status (§3, §4.8). -/
inductive RunStatus where
  | Pending
  | Running
  | Completed
  | Aborted
  | Failed
deriving DecidableEq

/-- Modelled from the spec: a Run record (§3): current node, status, and
the terminal reason populated only on Aborted or Failed. -/
structure Run where
  current : Node
  status : RunStatus
  reason : Option String

/-- Modelled from the spec: the budget cost report of one stage
invocation (§4.7); every attempt, successful or not, consumes budget
(§4.6), so the consumed units are positive. -/
structure Cost where
  units : Nat
  wall : Nat
  units_pos : 0 < units

/-- Modelled from the spec: the per-run engine state the Run Supervisor
threads through its loop (§2, §9): the Run record, the versioned state
store, and plain per-node retry, loop and budget counters. -/
structure EngineState where
  run : Run
  store : Store
  retries : Node → Nat
  loops : Node → Nat
  unitsConsumed : Node → Nat
  wallConsumed : Node → Nat

/-- Modelled from the spec: the engine state of a freshly accepted run,
entering Running at the Research node with empty state and zeroed
counters. -/
def EngineState.init : EngineState :=
  { run := { current := Node.Research, status := RunStatus.Running, reason := none }
    store := { state := RunState.init, version := 0 }
    retries := fun _ => 0
    loops := fun _ => 0
    unitsConsumed := fun _ => 0
    wallConsumed := fun _ => 0 }

/-- Modelled from the spec: total units consumed across all nodes of the
run, charged against the run-wide budget ceiling (§4.7). -/
def EngineState.totalUnits (es : EngineState) : Nat :=
  es.unitsConsumed Node.Research + es.unitsConsumed Node.Competitor +
    es.unitsConsumed Node.Ideation + es.unitsConsumed Node.Business +
    es.unitsConsumed Node.Tech + es.unitsConsumed Node.Validation +
    es.unitsConsumed Node.Export + es.unitsConsumed Node.Start

/-- Modelled from the spec: aborting the run with a terminal reason
(§4.8): fatal-operational outcomes terminate as Aborted. -/
def EngineState.abort (es : EngineState) (reason : String) : EngineState :=
  { es with run := { es.run with status := RunStatus.Aborted, reason := some reason } }

/-- Modelled from the spec: failing the run with a terminal reason
(§4.8): fatal-defect errors terminate as Failed, not Aborted. -/
def EngineState.fail (es : EngineState) (reason : String) : EngineState :=
  { es with run := { es.run with status := RunStatus.Failed, reason := some reason } }

/-- Modelled from the spec: charging one invocation's cost to the Budget
Ledger (§4.7): per-node units and wall-clock counters only ever grow. -/
def EngineState.charge (es : EngineState) (c : Cost) : EngineState :=
  { es with
    unitsConsumed :=
      Function.update es.unitsConsumed es.run.current
        (es.unitsConsumed es.run.current + c.units)
    wallConsumed :=
      Function.update es.wallConsumed es.run.current
        (es.wallConsumed es.run.current + c.wall) }

/-- Modelled from the spec: moving the run along a resolved graph edge:
to another node, or to one of the two terminals (§4.4). -/
def EngineState.moveTo (es : EngineState) (t : Target) (abortReason : String) :
    EngineState :=
  match t with
  | Target.node n => { es with run := { es.run with current := n } }
  | Target.Completed =>
      { es with run := { es.run with status := RunStatus.Completed } }
  | Target.Aborted => es.abort abortReason

/-- Modelled from the spec: the patch a successful stage outcome merges
into Run State (§4.2, §4.3): its evidence appended, its intermediate
result and confidence recorded under the producing node, and any
stage-reported safety flags accumulated. -/
def successPatch (n : Node) (result : String) (conf : ℚ)
    (ev : List EvidenceItem) (flags : List String) : Patch :=
  { newEvidence := ev
    resultFor := some (n, result)
    confidenceFor := some (n, conf)
    flags := flags }

/-- Modelled from the spec: Edge Router handling of the two
recoverable-by-loop outcome classes (§4.4 rules 2 and 3): route via the
node's edge for that class, incrementing the per-node loop counter; if
the counter would exceed the configured maximum, escalate to the node's
guardrail_breach edge (fatal, routes to Aborted) with a loop-exhaustion
reason. -/
def stepLoop (cfg : Config) (es : EngineState) (oc : OutcomeClass) : EngineState :=
  if es.loops es.run.current < cfg.maxLoopIterations then
    EngineState.moveTo
      { es with
        loops := Function.update es.loops es.run.current
          (es.loops es.run.current + 1) }
      (resolve es.run.current oc) "unexpected"
  else
    es.moveTo (resolve es.run.current OutcomeClass.guardrail_breach)
      ("loop_exhausted:" ++ nodeName es.run.current)

/-- Modelled from the spec: dispatch of a stage outcome after a granted,
charged invocation (§2 control flow): a Success outcome is merged into
the store, then judged by the Guardrail Monitor — a breach forces
Aborted with the guardrail's reason, overriding the Edge Router —
otherwise the Edge Router routes along the success edge; the loop
classes go through `stepLoop`; a TransientFailure goes to the
Retry/Backoff Controller, which either re-invokes the same node
(incrementing the attempt count) or escalates to Aborted with a
retries-exhausted reason (§4.4, §4.5, §4.6). -/
def stepOutcome (cfg : Config) (now : Nat) (es : EngineState) :
    Outcome → EngineState
  | Outcome.Success result conf ev flags =>
    match Store.apply es.store es.store.version
        (successPatch es.run.current result conf ev flags) with
    | Except.error _ => es.fail "stale_run"
    | Except.ok store' =>
      match evaluate cfg now store'.state with
      | GuardrailVerdict.breach r => EngineState.abort { es with store := store' } r
      | GuardrailVerdict.pass =>
          EngineState.moveTo { es with store := store' }
            (resolve es.run.current OutcomeClass.success) "unexpected"
  | Outcome.InsufficientEvidence _ =>
      stepLoop cfg es OutcomeClass.insufficient_evidence
  | Outcome.LowConfidence _ _ =>
      stepLoop cfg es OutcomeClass.low_confidence
  | Outcome.TransientFailure _ =>
    match onTransientFailure cfg (es.retries es.run.current) with
    | RetryAction.retryAfter _ =>
        { es with
          retries := Function.update es.retries es.run.current
            (es.retries es.run.current + 1) }
    | RetryAction.escalateToAbort =>
        es.abort ("retries_exhausted:" ++ nodeName es.run.current)

/-- Modelled from the spec: one iteration of the Run Supervisor loop
(§2, §4.8).  A run not in Running is terminal and is left unchanged.
Otherwise the Budget Ledger is asked to reserve the invocation's cost —
a denial aborts with reason budget_exceeded (§4.7) — then the Stage
Executor is invoked: a facts-first or transition defect fails the run
(Failed, §7); a produced outcome is charged to the ledger and dispatched
by `stepOutcome`.  The stage's own domain logic is external, so the
outcome it would produce and the cost it would report are parameters. -/
def step (cfg : Config) (now : Nat) (es : EngineState) (o : Outcome) (c : Cost) :
    EngineState :=
  if es.run.status = RunStatus.Running then
    if es.totalUnits + c.units ≤ cfg.runBudget then
      match invoke es.run.current es.store.state o with
      | Except.error DefectError.FactsFirstViolation =>
          es.fail "facts_first_violation"
      | Except.error DefectError.UnknownTransition => es.fail "unknown_transition"
      | Except.ok o' => stepOutcome cfg now (es.charge c) o'
    else
      es.abort "budget_exceeded"
  else
    es

/-- Modelled from the spec: the engine states reachable by iterating the
Run Supervisor loop from a freshly accepted run, for arbitrary stage
outcomes, cost reports and wall-clock times. -/
inductive Reachable (cfg : Config) : EngineState → Prop where
  | init : Reachable cfg EngineState.init
  | step (now : Nat) (o : Outcome) (c : Cost) {es : EngineState} :
      Reachable cfg es → Reachable cfg (step cfg now es o c)

end Engine

namespace Web

/-- Search filters of `HybridSearch.tsx` (interface SearchFilters):
optional source list, industry list, date range and minimum score. -/
structure SearchFilters where
  sources : List String
  industries : List String
  dateFrom : Option String
  dateTo : Option String
  minScore : Option ℚ
deriving DecidableEq

/-- One search result as the component consumes it; only the identity is
needed here, the component treats results as opaque records. -/
structure SearchResult where
  id : String
deriving DecidableEq

/-- The POST request body `performSearch` sends to /api/v1/search
(HybridSearch.tsx lines 119-134): query, filters, limit and the three
hybrid weights. -/
structure SearchRequest where
  query : String
  filters : SearchFilters
  limit : Nat
  bm25Weight : ℚ
  vectorWeight : ℚ
  rerankWeight : ℚ
deriving DecidableEq

/-- The component state `performSearch` reads and writes: the results
list, the loading flag and the error message. -/
structure SearchComponentState where
  results : List SearchResult
  loading : Bool
  error : Option String
deriving DecidableEq

/-- The possible outcomes of the awaited fetch: an ok response carrying
a result list (possibly absent, `data.results || []`), a non-ok response
(the code throws Error with message Search failed), or a rejected fetch
with its own message. -/
inductive FetchOutcome where
  | ok (results : Option (List SearchResult))
  | httpError
  | networkError (message : String)

/-- JavaScript's String.prototype.trim: strip leading and trailing
whitespace characters. -/
def jsTrim (s : String) : String :=
  String.mk
    (((s.data.dropWhile Char.isWhitespace).reverse.dropWhile
        Char.isWhitespace).reverse)

/-- The `performSearch` callback of HybridSearch.tsx (lines 109-150).
A blank query (falsy after trim) sets results to the empty list and
returns before touching loading, error or the network.  Otherwise
loading is set, error cleared, and exactly one POST request is issued
with limit 20 and hybrid weights bm25 0.4, vector 0.4, rerank 0.2; the
response (or failure) determines the final results and error, and
loading is reset in the finally block.  The function returns the final
component state paired with the list of requests issued. -/
def performSearch (query : String) (filters : SearchFilters)
    (st : SearchComponentState) (fetched : FetchOutcome) :
    SearchComponentState × List SearchRequest :=
  if jsTrim query = "" then
    ({ st with results := [] }, [])
  else
    let req : SearchRequest :=
      { query := query
        filters := filters
        limit := 20
        bm25Weight := 4 / 10
        vectorWeight := 4 / 10
        rerankWeight := 2 / 10 }
    match fetched with
    | FetchOutcome.ok rs =>
        ({ results := rs.getD [], loading := false, error := none }, [req])
    | FetchOutcome.httpError =>
        ({ results := [], loading := false, error := some "Search failed" }, [req])
    | FetchOutcome.networkError msg =>
        ({ results := [], loading := false, error := some msg }, [req])

/-- The `getScoreColor` helper of IdeaCanvas.tsx (lines 93-98).  The
argument is an optional score; the JavaScript guard `if (!score)` is a
truthiness check, so it returns gray for an absent score and for a score
of exactly 0 alike, then green for scores of at least 8, yellow for at
least 6, red otherwise. -/
def getScoreColor : Option ℚ → String
  | none => "gray"
  | some s =>
    if s = 0 then "gray"
    else if 8 ≤ s then "green"
    else if 6 ≤ s then "yellow"
    else "red"

/-- JavaScript's Number.prototype.toFixed with one fraction digit on a
rational: the integer n closest to ten times the value, ties resolved to
the larger n, printed with one digit after the point. -/
def toFixed1 (x : ℚ) : String :=
  (if ⌊x * 10 + 1 / 2⌋ < 0 then "-" else "") ++
    toString ((⌊x * 10 + 1 / 2⌋ : ℤ).natAbs / 10) ++ "." ++
    toString ((⌊x * 10 + 1 / 2⌋ : ℤ).natAbs % 10)

/-- The text the score cards of IdeaCanvas.tsx render (lines 167-169 and
189-191): `score?.toFixed(1) || 'N/A'` — optional chaining yields
undefined for an absent score, and the empty-or-falsy fallback kicks in
only then, because toFixed of any number is a non-empty string (in
particular 0 renders as 0.0, which is truthy). -/
def renderScoreText : Option ℚ → String
  | none => "N/A"
  | some s => if toFixed1 s = "" then "N/A" else toFixed1 s

/-- Whether the Progress bar of a score card renders (IdeaCanvas.tsx
lines 173-180 and 195-202): guarded by `score && (<Progress .../>)`, a
truthiness check, so absent scores and a score of exactly 0 render no
Progress component. -/
def renderProgressBar : Option ℚ → Bool
  | none => false
  | some s => decide (s ≠ 0)

/-- The visible pieces of one score card (attractiveness or confidence)
of IdeaCanvas.tsx: the big text, its color, and whether a progress bar
is shown. -/
structure ScoreCard where
  text : String
  color : String
  hasBar : Bool
deriving DecidableEq

/-- Rendering one score card from an optional score (IdeaCanvas.tsx
lines 161-204). -/
def renderScoreCard (score : Option ℚ) : ScoreCard :=
  { text := renderScoreText score
    color := getScoreColor score
    hasBar := renderProgressBar score }

end Web

namespace Sample

open Engine

/-- A concrete guardrail/budget configuration used to exercise the
engine theorems on closed inputs. -/
def cfg0 : Config :=
  { minSourceDiversity := 1
    recencyWindow := 10
    maxLoopIterations := 0
    maxRetries := 0
    runBudget := 100
    backoffBase := 1
    jitterFraction := 1 / 2
    maxDelay := 100 }

/-- A configuration that still has retry budget left. -/
def cfgRetry : Config :=
  { cfg0 with maxRetries := 2 }

/-- A concrete one-unit cost report. -/
def cost1 : Cost :=
  { units := 1, wall := 1, units_pos := Nat.one_pos }

/-- An engine state sitting at the Ideation node with no evidence at
all, exercising the facts-first check. -/
def esIdeation : EngineState :=
  { EngineState.init with
    run := { current := Engine.Node.Ideation, status := RunStatus.Running
             reason := none } }

/-- A single fresh evidence item from one source, attributed to
Research. -/
def ev1 : EvidenceItem :=
  { source := "src1", recency := 5, attributedTo := Engine.Node.Research }

/-- An engine state sitting at the Export node whose accumulated
evidence satisfies every guardrail of `cfg0` at time 6. -/
def esExport : EngineState :=
  { EngineState.init with
    run := { current := Engine.Node.Export, status := RunStatus.Running
             reason := none }
    store := { state := { RunState.init with evidence := [ev1] }, version := 3 } }

/-- A concrete store at version 0 with empty state. -/
def store0 : Store :=
  { state := RunState.init, version := 0 }

/-- An empty patch. -/
def patch0 : Patch :=
  { newEvidence := [], resultFor := none, confidenceFor := none, flags := [] }

/-- Empty search filters. -/
def filters0 : Web.SearchFilters :=
  { sources := [], industries := [], dateFrom := none, dateTo := none
    minScore := none }

/-- A component state with a stale result, loading set, and an old
error, to observe exactly which fields a blank-query call touches. -/
def searchState0 : Web.SearchComponentState :=
  { results := [{ id := "r1" }], loading := true, error := some "old" }

end Sample

namespace Engine

@[simp] theorem abort_status (es : EngineState) (r : String) :
    (es.abort r).run.status = RunStatus.Aborted := rfl

@[simp] theorem abort_reason (es : EngineState) (r : String) :
    (es.abort r).run.reason = some r := rfl

@[simp] theorem abort_current (es : EngineState) (r : String) :
    (es.abort r).run.current = es.run.current := rfl

@[simp] theorem abort_retries (es : EngineState) (r : String) :
    (es.abort r).retries = es.retries := rfl

@[simp] theorem abort_loops (es : EngineState) (r : String) :
    (es.abort r).loops = es.loops := rfl

@[simp] theorem abort_units (es : EngineState) (r : String) :
    (es.abort r).unitsConsumed = es.unitsConsumed := rfl

@[simp] theorem abort_wall (es : EngineState) (r : String) :
    (es.abort r).wallConsumed = es.wallConsumed := rfl

@[simp] theorem fail_status (es : EngineState) (r : String) :
    (es.fail r).run.status = RunStatus.Failed := rfl

@[simp] theorem fail_reason (es : EngineState) (r : String) :
    (es.fail r).run.reason = some r := rfl

@[simp] theorem fail_retries (es : EngineState) (r : String) :
    (es.fail r).retries = es.retries := rfl

@[simp] theorem fail_loops (es : EngineState) (r : String) :
    (es.fail r).loops = es.loops := rfl

@[simp] theorem fail_units (es : EngineState) (r : String) :
    (es.fail r).unitsConsumed = es.unitsConsumed := rfl

@[simp] theorem fail_wall (es : EngineState) (r : String) :
    (es.fail r).wallConsumed = es.wallConsumed := rfl

@[simp] theorem charge_run (es : EngineState) (c : Cost) :
    (es.charge c).run = es.run := rfl

@[simp] theorem charge_retries (es : EngineState) (c : Cost) :
    (es.charge c).retries = es.retries := rfl

@[simp] theorem charge_loops (es : EngineState) (c : Cost) :
    (es.charge c).loops = es.loops := rfl

@[simp] theorem charge_store (es : EngineState) (c : Cost) :
    (es.charge c).store = es.store := rfl

theorem charge_units_le (es : EngineState) (c : Cost) (n : Node) :
    es.unitsConsumed n ≤ (es.charge c).unitsConsumed n := by
  simp only [EngineState.charge, Function.update_apply]
  split
  · next h => subst h; exact Nat.le_add_right _ _
  · exact Nat.le_refl _

theorem charge_wall_le (es : EngineState) (c : Cost) (n : Node) :
    es.wallConsumed n ≤ (es.charge c).wallConsumed n := by
  simp only [EngineState.charge, Function.update_apply]
  split
  · next h => subst h; exact Nat.le_add_right _ _
  · exact Nat.le_refl _

theorem charge_units_current (es : EngineState) (c : Cost) :
    (es.charge c).unitsConsumed es.run.current =
      es.unitsConsumed es.run.current + c.units := by
  simp [EngineState.charge]

@[simp] theorem moveTo_retries (es : EngineState) (t : Target) (r : String) :
    (es.moveTo t r).retries = es.retries := by
  cases t <;> rfl

@[simp] theorem moveTo_loops (es : EngineState) (t : Target) (r : String) :
    (es.moveTo t r).loops = es.loops := by
  cases t <;> rfl

@[simp] theorem moveTo_units (es : EngineState) (t : Target) (r : String) :
    (es.moveTo t r).unitsConsumed = es.unitsConsumed := by
  cases t <;> rfl

@[simp] theorem moveTo_wall (es : EngineState) (t : Target) (r : String) :
    (es.moveTo t r).wallConsumed = es.wallConsumed := by
  cases t <;> rfl

theorem moveTo_node_status (es : EngineState) (n : Node) (r : String) :
    (es.moveTo (Target.node n) r).run.status = es.run.status := rfl

theorem stepLoop_retries (cfg : Config) (es : EngineState) (oc : OutcomeClass) :
    (stepLoop cfg es oc).retries = es.retries := by
  unfold stepLoop
  split <;> simp

theorem stepLoop_units (cfg : Config) (es : EngineState) (oc : OutcomeClass) :
    (stepLoop cfg es oc).unitsConsumed = es.unitsConsumed := by
  unfold stepLoop
  split <;> simp

theorem stepLoop_wall (cfg : Config) (es : EngineState) (oc : OutcomeClass) :
    (stepLoop cfg es oc).wallConsumed = es.wallConsumed := by
  unfold stepLoop
  split <;> simp

theorem stepLoop_loops_char (cfg : Config) (es : EngineState)
    (oc : OutcomeClass) (n : Node) :
    (stepLoop cfg es oc).loops n = es.loops n ∨
      ((stepLoop cfg es oc).loops n = es.loops n + 1 ∧
        es.loops n < cfg.maxLoopIterations) := by
  unfold stepLoop
  split
  · next h =>
    simp only [moveTo_loops, Function.update_apply]
    split
    · next he => subst he; exact Or.inr ⟨rfl, h⟩
    · exact Or.inl rfl
  · simp

theorem stepLoop_exhausted (cfg : Config) (es : EngineState) (oc : OutcomeClass)
    (h : ¬ es.loops es.run.current < cfg.maxLoopIterations) :
    stepLoop cfg es oc =
      es.abort ("loop_exhausted:" ++ nodeName es.run.current) := by
  unfold stepLoop
  rw [if_neg h]
  rfl

theorem apply_self (s : Store) (p : Patch) :
    Store.apply s s.version p =
      Except.ok { state := mergePatch s.state p, version := s.version + 1 } := by
  unfold Store.apply
  rw [if_pos rfl]

theorem onTransientFailure_retry (cfg : Config) (a : Nat) (d : ℚ)
    (h : onTransientFailure cfg a = RetryAction.retryAfter d) :
    a < cfg.maxRetries := by
  by_cases hc : a < cfg.maxRetries
  · exact hc
  · unfold onTransientFailure at h
    rw [if_neg hc] at h
    exact absurd h (by simp)

theorem onTransientFailure_escalate (cfg : Config) (a : Nat)
    (h : ¬ a < cfg.maxRetries) :
    onTransientFailure cfg a = RetryAction.escalateToAbort := by
  unfold onTransientFailure
  rw [if_neg h]

theorem step_not_running (cfg : Config) (now : Nat) (es : EngineState)
    (o : Outcome) (c : Cost) (h : es.run.status ≠ RunStatus.Running) :
    step cfg now es o c = es := by
  unfold step
  rw [if_neg h]

theorem step_retries_char (cfg : Config) (now : Nat) (es : EngineState)
    (o : Outcome) (c : Cost) (n : Node) :
    (step cfg now es o c).retries n = es.retries n ∨
      ((step cfg now es o c).retries n = es.retries n + 1 ∧
        es.retries n < cfg.maxRetries) := by
  unfold step
  split
  · split
    · split
      · simp
      · simp
      · next o' heq =>
        cases o' with
        | Success result conf ev flags =>
          simp only [stepOutcome]
          split
          · simp
          · split
            · simp
            · simp
        | InsufficientEvidence gap =>
          exact Or.inl (by rw [stepOutcome, stepLoop_retries, charge_retries])
        | LowConfidence score threshold =>
          exact Or.inl (by rw [stepOutcome, stepLoop_retries, charge_retries])
        | TransientFailure cause =>
          simp only [stepOutcome]
          split
          · next d heq3 =>
            have hlt := onTransientFailure_retry cfg _ d heq3
            rw [charge_retries, charge_run] at hlt
            simp only [charge_retries, charge_run, Function.update_apply]
            split
            · next he => subst he; exact Or.inr ⟨rfl, hlt⟩
            · exact Or.inl rfl
          · simp
    · simp
  · simp

theorem stepOutcome_units (cfg : Config) (now : Nat) (es : EngineState)
    (o : Outcome) :
    (stepOutcome cfg now es o).unitsConsumed = es.unitsConsumed := by
  cases o with
  | Success result conf ev flags =>
    simp only [stepOutcome]
    split
    · simp
    · split
      · simp
      · simp
  | InsufficientEvidence gap => rw [stepOutcome, stepLoop_units]
  | LowConfidence score threshold => rw [stepOutcome, stepLoop_units]
  | TransientFailure cause =>
    simp only [stepOutcome]
    split
    · rfl
    · simp

theorem stepOutcome_wall (cfg : Config) (now : Nat) (es : EngineState)
    (o : Outcome) :
    (stepOutcome cfg now es o).wallConsumed = es.wallConsumed := by
  cases o with
  | Success result conf ev flags =>
    simp only [stepOutcome]
    split
    · simp
    · split
      · simp
      · simp
  | InsufficientEvidence gap => rw [stepOutcome, stepLoop_wall]
  | LowConfidence score threshold => rw [stepOutcome, stepLoop_wall]
  | TransientFailure cause =>
    simp only [stepOutcome]
    split
    · rfl
    · simp

theorem step_units_le (cfg : Config) (now : Nat) (es : EngineState)
    (o : Outcome) (c : Cost) (n : Node) :
    es.unitsConsumed n ≤ (step cfg now es o c).unitsConsumed n := by
  unfold step
  split
  · split
    · split
      · simp
      · simp
      · next o' heq =>
        rw [stepOutcome_units]
        exact charge_units_le es c n
    · simp
  · simp

theorem step_wall_le (cfg : Config) (now : Nat) (es : EngineState)
    (o : Outcome) (c : Cost) (n : Node) :
    es.wallConsumed n ≤ (step cfg now es o c).wallConsumed n := by
  unfold step
  split
  · split
    · split
      · simp
      · simp
      · next o' heq =>
        rw [stepOutcome_wall]
        exact charge_wall_le es c n
    · simp
  · simp

theorem invoke_ok_eq (n : Node) (st : RunState) (o o' : Outcome)
    (h : invoke n st o = Except.ok o') : o' = o := by
  unfold invoke at h
  split at h
  · exact absurd h (by simp)
  · injection h with h
    exact h.symm

theorem moveTo_success_completed (es' : EngineState) (n : Node) (r : String)
    (hs : es'.run.status ≠ RunStatus.Completed)
    (h : (es'.moveTo (resolve n OutcomeClass.success) r).run.status =
      RunStatus.Completed) :
    n = Node.Export := by
  cases n <;>
    first
      | rfl
      | exact absurd (h.symm.trans (moveTo_node_status es' _ r)).symm hs

theorem step_loops_char (cfg : Config) (now : Nat) (es : EngineState)
    (o : Outcome) (c : Cost) (n : Node) :
    (step cfg now es o c).loops n = es.loops n ∨
      ((step cfg now es o c).loops n = es.loops n + 1 ∧
        es.loops n < cfg.maxLoopIterations) := by
  unfold step
  split
  · split
    · split
      · simp
      · simp
      · next o' heq =>
        cases o' with
        | Success result conf ev flags =>
          simp only [stepOutcome]
          split
          · simp
          · split
            · simp
            · simp
        | InsufficientEvidence gap =>
          have h := stepLoop_loops_char cfg (es.charge c)
            OutcomeClass.insufficient_evidence n
          rw [charge_loops] at h
          exact h
        | LowConfidence score threshold =>
          have h := stepLoop_loops_char cfg (es.charge c)
            OutcomeClass.low_confidence n
          rw [charge_loops] at h
          exact h
        | TransientFailure cause =>
          simp only [stepOutcome]
          split
          · simp
          · simp
    · simp
  · simp

theorem reachable_retries_le (cfg : Config) (es : EngineState)
    (h : Reachable cfg es) (n : Node) : es.retries n ≤ cfg.maxRetries := by
  induction h with
  | init => exact Nat.zero_le _
  | step now o c hre ih =>
    rcases step_retries_char cfg now _ o c n with he | ⟨he, hlt⟩
    · rw [he]; exact ih
    · rw [he]; exact hlt

theorem reachable_loops_le (cfg : Config) (es : EngineState)
    (h : Reachable cfg es) (n : Node) : es.loops n ≤ cfg.maxLoopIterations := by
  induction h with
  | init => exact Nat.zero_le _
  | step now o c hre ih =>
    rcases step_loops_char cfg now _ o c n with he | ⟨he, hlt⟩
    · rw [he]; exact ih
    · rw [he]; exact hlt

theorem step_ok_eq (cfg : Config) (now : Nat) (es : EngineState) (o : Outcome)
    (c : Cost) (h1 : es.run.status = RunStatus.Running)
    (h2 : es.totalUnits + c.units ≤ cfg.runBudget)
    (h3 : invoke es.run.current es.store.state o = Except.ok o) :
    step cfg now es o c = stepOutcome cfg now (es.charge c) o := by
  unfold step
  rw [if_pos h1, if_pos h2]
  split
  · next heq => rw [h3] at heq; exact absurd heq (by simp)
  · next heq => rw [h3] at heq; exact absurd heq (by simp)
  · next o' heq =>
    rw [h3] at heq
    injection heq with heq
    rw [heq]

theorem step_facts_first_eq (cfg : Config) (now : Nat) (es : EngineState)
    (o : Outcome) (c : Cost) (h1 : es.run.status = RunStatus.Running)
    (h2 : es.totalUnits + c.units ≤ cfg.runBudget)
    (h3 : invoke es.run.current es.store.state o =
      Except.error DefectError.FactsFirstViolation) :
    step cfg now es o c = es.fail "facts_first_violation" := by
  unfold step
  rw [if_pos h1, if_pos h2]
  split
  · rfl
  · next heq => rw [h3] at heq; exact absurd heq (by simp)
  · next o' heq => rw [h3] at heq; exact absurd heq (by simp)

/-- C2: for every run and every node, the per-node retry attempt count
never exceeds the configured maxRetries; once the count would exceed
maxRetries, a TransientFailure outcome is reclassified as fatal and the
run transitions to Aborted with a retries-exhausted reason, so no run
retries a node infinitely. -/
theorem retry_attempts_never_exceed_max (cfg : Config) :
    (∀ es, Reachable cfg es → ∀ n, es.retries n ≤ cfg.maxRetries) ∧
      (∀ now es cause c,
        es.run.status = RunStatus.Running →
        es.totalUnits + c.units ≤ cfg.runBudget →
        invoke es.run.current es.store.state (Outcome.TransientFailure cause) =
          Except.ok (Outcome.TransientFailure cause) →
        cfg.maxRetries ≤ es.retries es.run.current →
        (step cfg now es (Outcome.TransientFailure cause) c).run.status =
            RunStatus.Aborted ∧
          (step cfg now es (Outcome.TransientFailure cause) c).run.reason =
            some ("retries_exhausted:" ++ nodeName es.run.current)) := by
  constructor
  · intro es h n
    exact reachable_retries_le cfg es h n
  · intro now es cause c h1 h2 h3 hge
    unfold step
    rw [if_pos h1, if_pos h2]
    split
    · next heq => rw [h3] at heq; exact absurd heq (by simp)
    · next heq => rw [h3] at heq; exact absurd heq (by simp)
    · next o' heq =>
      rw [h3] at heq
      injection heq with heq
      subst heq
      simp only [stepOutcome]
      split
      · next d heq3 =>
        have hlt := onTransientFailure_retry cfg _ d heq3
        rw [charge_retries, charge_run] at hlt
        exact absurd hlt (Nat.not_lt.mpr hge)
      · exact ⟨by simp, by simp [charge_run]⟩

theorem retry_attempts_never_exceed_max_witness :
    EngineState.init.retries Node.Research ≤ Sample.cfg0.maxRetries ∧
      ((step Sample.cfg0 0 EngineState.init (Outcome.TransientFailure "timeout")
            Sample.cost1).run.status = RunStatus.Aborted ∧
        (step Sample.cfg0 0 EngineState.init (Outcome.TransientFailure "timeout")
            Sample.cost1).run.reason =
          some ("retries_exhausted:" ++ nodeName EngineState.init.run.current)) :=
  ⟨(retry_attempts_never_exceed_max Sample.cfg0).1 EngineState.init
      Reachable.init Node.Research,
    (retry_attempts_never_exceed_max Sample.cfg0).2 0 EngineState.init "timeout"
      Sample.cost1 rfl (by decide) rfl (by decide)⟩

theorem step_success_breach (cfg : Config) (now : Nat) (es : EngineState)
    (result : String) (conf : ℚ) (ev : List EvidenceItem) (flags : List String)
    (c : Cost) (r : String) (h1 : es.run.status = RunStatus.Running)
    (h2 : es.totalUnits + c.units ≤ cfg.runBudget)
    (h3 : invoke es.run.current es.store.state
        (Outcome.Success result conf ev flags) =
      Except.ok (Outcome.Success result conf ev flags))
    (h4 : evaluate cfg now
        (mergePatch es.store.state
          (successPatch es.run.current result conf ev flags)) =
      GuardrailVerdict.breach r) :
    step cfg now es (Outcome.Success result conf ev flags) c =
      EngineState.abort
        { es.charge c with
          store :=
            { state :=
                mergePatch es.store.state
                  (successPatch es.run.current result conf ev flags)
              version := es.store.version + 1 } }
        r := by
  rw [step_ok_eq cfg now es _ c h1 h2 h3]
  simp only [stepOutcome, charge_store, charge_run, apply_self]
  rw [h4]

/-- C3: for every run and every node, the per-node loop iteration count
(from insufficient_evidence and low_confidence routing) never exceeds
the configured maxLoopIterations; exceeding it always and only escalates
the outcome to the node's guardrail_breach edge (which routes to
Aborted), producing terminal status Aborted with a loop-exhaustion
reason, while a loop outcome under the cap keeps the run alive and
increments the counter. -/
theorem loop_iterations_never_exceed_max (cfg : Config) :
    (∀ es, Reachable cfg es → ∀ n, es.loops n ≤ cfg.maxLoopIterations) ∧
      (∀ n, resolve n OutcomeClass.guardrail_breach = Target.Aborted) ∧
      (∀ now es o c,
        es.run.status = RunStatus.Running →
        es.totalUnits + c.units ≤ cfg.runBudget →
        invoke es.run.current es.store.state o = Except.ok o →
        (o.toClass = OutcomeClass.insufficient_evidence ∨
          o.toClass = OutcomeClass.low_confidence) →
        (cfg.maxLoopIterations ≤ es.loops es.run.current →
            (step cfg now es o c).run.status = RunStatus.Aborted ∧
              (step cfg now es o c).run.reason =
                some ("loop_exhausted:" ++ nodeName es.run.current)) ∧
          (es.loops es.run.current < cfg.maxLoopIterations →
            (step cfg now es o c).run.status = es.run.status ∧
              (step cfg now es o c).loops es.run.current =
                es.loops es.run.current + 1)) := by
  refine ⟨fun es h n => reachable_loops_le cfg es h n, fun n => rfl, ?_⟩
  intro now es o c h1 h2 h3 hcl
  rw [step_ok_eq cfg now es o c h1 h2 h3]
  cases o with
  | Success result conf ev flags => simp [Outcome.toClass] at hcl
  | TransientFailure cause => simp [Outcome.toClass] at hcl
  | InsufficientEvidence gap =>
    constructor
    · intro hge
      rw [stepOutcome, stepLoop_exhausted cfg (es.charge c)
        OutcomeClass.insufficient_evidence
        (by rw [charge_loops, charge_run]; exact Nat.not_lt.mpr hge)]
      exact ⟨by simp, by simp [charge_run]⟩
    · intro hlt
      rw [stepOutcome]
      unfold stepLoop
      rw [if_pos (by rw [charge_loops, charge_run]; exact hlt)]
      constructor
      · rfl
      · simp [charge_run, Function.update_apply]
  | LowConfidence score threshold =>
    constructor
    · intro hge
      rw [stepOutcome, stepLoop_exhausted cfg (es.charge c)
        OutcomeClass.low_confidence
        (by rw [charge_loops, charge_run]; exact Nat.not_lt.mpr hge)]
      exact ⟨by simp, by simp [charge_run]⟩
    · intro hlt
      rw [stepOutcome]
      unfold stepLoop
      rw [if_pos (by rw [charge_loops, charge_run]; exact hlt)]
      constructor
      · rfl
      · simp [charge_run, Function.update_apply]

theorem loop_iterations_never_exceed_max_witness :
    EngineState.init.loops Node.Research ≤ Sample.cfg0.maxLoopIterations ∧
      resolve Node.Research OutcomeClass.guardrail_breach = Target.Aborted ∧
      ((step Sample.cfg0 0 EngineState.init (Outcome.InsufficientEvidence "gap")
            Sample.cost1).run.status = RunStatus.Aborted ∧
        (step Sample.cfg0 0 EngineState.init (Outcome.InsufficientEvidence "gap")
            Sample.cost1).run.reason =
          some ("loop_exhausted:" ++ nodeName EngineState.init.run.current)) :=
  ⟨(loop_iterations_never_exceed_max Sample.cfg0).1 EngineState.init
      Reachable.init Node.Research,
    (loop_iterations_never_exceed_max Sample.cfg0).2.1 Node.Research,
    ((loop_iterations_never_exceed_max Sample.cfg0).2.2 0 EngineState.init
        (Outcome.InsufficientEvidence "gap") Sample.cost1 rfl (by decide) rfl
        (Or.inl rfl)).1 (by decide)⟩

/-- C1: for every run and every node, if the Guardrail Monitor returns a
breach verdict after a successful stage outcome, the run transitions to
terminal status Aborted regardless of the transition the Edge Router
would have selected, and the run's terminal reason names the specific
guardrail that triggered the breach. -/
theorem guardrail_breach_forces_abort (cfg : Config) (now : Nat)
    (es : EngineState) (result : String) (conf : ℚ) (ev : List EvidenceItem)
    (flags : List String) (c : Cost) (r : String)
    (h1 : es.run.status = RunStatus.Running)
    (h2 : es.totalUnits + c.units ≤ cfg.runBudget)
    (h3 : invoke es.run.current es.store.state
        (Outcome.Success result conf ev flags) =
      Except.ok (Outcome.Success result conf ev flags))
    (h4 : evaluate cfg now
        (mergePatch es.store.state
          (successPatch es.run.current result conf ev flags)) =
      GuardrailVerdict.breach r) :
    (step cfg now es (Outcome.Success result conf ev flags) c).run.status =
        RunStatus.Aborted ∧
      (step cfg now es (Outcome.Success result conf ev flags) c).run.reason =
        some r := by
  rw [step_success_breach cfg now es result conf ev flags c r h1 h2 h3 h4]
  exact ⟨rfl, rfl⟩

theorem guardrail_breach_forces_abort_witness :
    (step Sample.cfg0 0 EngineState.init (Outcome.Success "r" 1 [] [])
        Sample.cost1).run.status = RunStatus.Aborted ∧
      (step Sample.cfg0 0 EngineState.init (Outcome.Success "r" 1 [] [])
        Sample.cost1).run.reason = some "source_diversity" :=
  guardrail_breach_forces_abort Sample.cfg0 0 EngineState.init "r" 1 [] []
    Sample.cost1 "source_diversity" rfl (by decide) rfl (by decide)

/-- C4: for every run, invoking the Stage Executor on any of the
Ideation, Business, Tech, or Validation nodes when the run state
contains zero evidence items attributed to the Research node raises
FactsFirstViolation and puts the run in terminal status Failed (not
Aborted); the failed run is absorbing, so this error is never retried. -/
theorem facts_first_violation_fails (cfg : Config) (now : Nat)
    (es : EngineState) (o : Outcome) (c : Cost)
    (h1 : es.run.status = RunStatus.Running)
    (h2 : es.totalUnits + c.units ≤ cfg.runBudget)
    (hgen : es.run.current ∈ generationNodes)
    (hev : (es.store.state.evidence.filter
      (fun e => e.attributedTo = Node.Research)).length = 0) :
    invoke es.run.current es.store.state o =
        Except.error DefectError.FactsFirstViolation ∧
      (step cfg now es o c).run.status = RunStatus.Failed ∧
      (step cfg now es o c).run.status ≠ RunStatus.Aborted ∧
      (step cfg now es o c).retries = es.retries ∧
      (∀ now2 o2 c2,
        step cfg now2 (step cfg now es o c) o2 c2 = step cfg now es o c) := by
  have hemp : es.store.state.evidence.filter
      (fun e => e.attributedTo = Node.Research) = [] :=
    List.length_eq_zero.mp hev
  have hff : factsFirstOk es.store.state = false := by
    unfold factsFirstOk
    rw [List.any_eq_false]
    intro x hx hpx
    have hmem : x ∈ es.store.state.evidence.filter
        (fun e => e.attributedTo = Node.Research) :=
      List.mem_filter.mpr ⟨hx, hpx⟩
    rw [hemp] at hmem
    exact absurd hmem (List.not_mem_nil x)
  have hinv : invoke es.run.current es.store.state o =
      Except.error DefectError.FactsFirstViolation := by
    unfold invoke
    rw [if_pos ⟨hgen, by rw [hff]; exact Bool.false_ne_true⟩]
  rw [step_facts_first_eq cfg now es o c h1 h2 hinv]
  refine ⟨hinv, rfl, by simp, rfl, ?_⟩
  intro now2 o2 c2
  exact step_not_running cfg now2 _ o2 c2 (by simp)

theorem facts_first_violation_fails_witness :
    invoke Sample.esIdeation.run.current Sample.esIdeation.store.state
        (Outcome.Success "r" 1 [] []) =
      Except.error DefectError.FactsFirstViolation ∧
      (step Sample.cfg0 0 Sample.esIdeation (Outcome.Success "r" 1 [] [])
          Sample.cost1).run.status = RunStatus.Failed ∧
      (step Sample.cfg0 0 Sample.esIdeation (Outcome.Success "r" 1 [] [])
          Sample.cost1).run.status ≠ RunStatus.Aborted ∧
      (step Sample.cfg0 0 Sample.esIdeation (Outcome.Success "r" 1 [] [])
          Sample.cost1).retries = Sample.esIdeation.retries ∧
      (∀ now2 o2 c2,
        step Sample.cfg0 now2
            (step Sample.cfg0 0 Sample.esIdeation (Outcome.Success "r" 1 [] [])
              Sample.cost1) o2 c2 =
          step Sample.cfg0 0 Sample.esIdeation (Outcome.Success "r" 1 [] [])
            Sample.cost1) :=
  facts_first_violation_fails Sample.cfg0 0 Sample.esIdeation
    (Outcome.Success "r" 1 [] []) Sample.cost1 rfl (by decide) (by decide) rfl

/-- C5: the Run State Store's apply operation succeeds exactly when the
presented base version equals the store's current version; an older
presented version fails with StaleRun (producing no new store value),
and after one patch succeeds against a base version, a second patch
presented against that same base version must fail with StaleRun, so
two patches never both succeed against the same base. -/
theorem apply_version_controlled (s : Store) (v : Nat) (p p2 : Patch) :
    ((∃ s', Store.apply s v p = Except.ok s') ↔ v = s.version) ∧
      (v < s.version → Store.apply s v p = Except.error StoreError.StaleRun) ∧
      (∀ s1, Store.apply s v p = Except.ok s1 →
        Store.apply s1 v p2 = Except.error StoreError.StaleRun) := by
  refine ⟨⟨?_, ?_⟩, ?_, ?_⟩
  · rintro ⟨s', h⟩
    by_cases hv : v = s.version
    · exact hv
    · unfold Store.apply at h
      rw [if_neg hv] at h
      exact absurd h (by simp)
  · intro hv
    exact ⟨_, by unfold Store.apply; rw [if_pos hv]⟩
  · intro hv
    unfold Store.apply
    rw [if_neg (Nat.ne_of_lt hv)]
  · intro s1 h
    have hv : v = s.version := by
      by_cases hv : v = s.version
      · exact hv
      · unfold Store.apply at h
        rw [if_neg hv] at h
        exact absurd h (by simp)
    unfold Store.apply at h
    rw [if_pos hv] at h
    injection h with h
    have hver : s1.version = s.version + 1 := by rw [← h]
    have hne : v ≠ s1.version := by
      rw [hver, hv]
      omega
    unfold Store.apply
    rw [if_neg hne]

theorem apply_version_controlled_witness :
    (∃ s', Store.apply Sample.store0 0 Sample.patch0 = Except.ok s') ∧
      Store.apply { Sample.store0 with version := 5 } 0 Sample.patch0 =
        Except.error StoreError.StaleRun ∧
      Store.apply
          { state := mergePatch Sample.store0.state Sample.patch0, version := 1 }
          0 Sample.patch0 = Except.error StoreError.StaleRun :=
  ⟨(apply_version_controlled Sample.store0 0 Sample.patch0 Sample.patch0).1.mpr
      rfl,
    (apply_version_controlled { Sample.store0 with version := 5 } 0
        Sample.patch0 Sample.patch0).2.1 (by decide),
    (apply_version_controlled Sample.store0 0 Sample.patch0 Sample.patch0).2.2
      { state := mergePatch Sample.store0.state Sample.patch0, version := 1 }
      rfl⟩

/-- C6: the Budget Ledger's consumed counters (units and wall-clock) are
monotonically non-decreasing across every engine step, and any actually
performed invocation — in particular a retried one — strictly increases
the consumed units of the current node, since every attempt consumes
positive budget. -/
theorem budget_consumption_monotone (cfg : Config) :
    (∀ now es o c n,
      es.unitsConsumed n ≤ (step cfg now es o c).unitsConsumed n ∧
        es.wallConsumed n ≤ (step cfg now es o c).wallConsumed n) ∧
      (∀ now es o c,
        es.run.status = RunStatus.Running →
        es.totalUnits + c.units ≤ cfg.runBudget →
        invoke es.run.current es.store.state o = Except.ok o →
        es.unitsConsumed es.run.current <
          (step cfg now es o c).unitsConsumed es.run.current) := by
  constructor
  · intro now es o c n
    exact ⟨step_units_le cfg now es o c n, step_wall_le cfg now es o c n⟩
  · intro now es o c h1 h2 h3
    rw [step_ok_eq cfg now es o c h1 h2 h3, stepOutcome_units,
      charge_units_current]
    exact Nat.lt_add_of_pos_right c.units_pos

theorem budget_consumption_monotone_witness :
    (EngineState.init.unitsConsumed Node.Research ≤
        (step Sample.cfg0 0 EngineState.init (Outcome.TransientFailure "t")
          Sample.cost1).unitsConsumed Node.Research ∧
      EngineState.init.wallConsumed Node.Research ≤
        (step Sample.cfg0 0 EngineState.init (Outcome.TransientFailure "t")
          Sample.cost1).wallConsumed Node.Research) ∧
      EngineState.init.unitsConsumed EngineState.init.run.current <
        (step Sample.cfg0 0 EngineState.init (Outcome.TransientFailure "t")
          Sample.cost1).unitsConsumed EngineState.init.run.current :=
  ⟨(budget_consumption_monotone Sample.cfg0).1 0 EngineState.init
      (Outcome.TransientFailure "t") Sample.cost1 Node.Research,
    (budget_consumption_monotone Sample.cfg0).2 0 EngineState.init
      (Outcome.TransientFailure "t") Sample.cost1 rfl (by decide) rfl⟩

theorem backoffFactor_eq_pow (n : Nat) : backoffFactor n = 2 ^ n := by
  induction n with
  | zero => rfl
  | succ n ih => rw [backoffFactor, ih, pow_succ]; ring

/-- C7: for every transient failure the Retry/Backoff Controller still
retries (attempt below the cap), the computed retry delay equals
min(base * 2 ^ attempt * (1 + jitterFraction), configured maximum
delay). -/
theorem retry_delay_formula (cfg : Config) (attempt : Nat)
    (h : attempt < cfg.maxRetries) :
    onTransientFailure cfg attempt =
      RetryAction.retryAfter
        (min (cfg.backoffBase * 2 ^ attempt * (1 + cfg.jitterFraction))
          cfg.maxDelay) := by
  unfold onTransientFailure
  rw [if_pos h, backoffFactor_eq_pow]

theorem retry_delay_formula_witness :
    onTransientFailure Sample.cfgRetry 1 =
      RetryAction.retryAfter
        (min (Sample.cfgRetry.backoffBase * 2 ^ 1 *
            (1 + Sample.cfgRetry.jitterFraction))
          Sample.cfgRetry.maxDelay) :=
  retry_delay_formula Sample.cfgRetry 1 (by decide)

theorem stepOutcome_completed (cfg : Config) (now : Nat) (X : EngineState)
    (o : Outcome) (hs : X.run.status = RunStatus.Running)
    (hc : (stepOutcome cfg now X o).run.status = RunStatus.Completed) :
    X.run.current = Node.Export ∧ o.toClass = OutcomeClass.success := by
  cases o with
  | Success result conf ev flags =>
    refine ⟨?_, rfl⟩
    simp only [stepOutcome] at hc
    split at hc
    · simp at hc
    · next store' heq2 =>
      split at hc
      · simp at hc
      · refine moveTo_success_completed { X with store := store' }
          X.run.current "unexpected" ?_ hc
        show ({ X with store := store' } : EngineState).run.status ≠
          RunStatus.Completed
        rw [show ({ X with store := store' } : EngineState).run = X.run from rfl,
          hs]
        simp
  | InsufficientEvidence gap =>
    exfalso
    simp only [stepOutcome] at hc
    unfold stepLoop at hc
    split at hc
    · rw [show resolve X.run.current OutcomeClass.insufficient_evidence =
          Target.node Node.Research from rfl, moveTo_node_status] at hc
      rw [show ({ X with
            loops := Function.update X.loops X.run.current
              (X.loops X.run.current + 1) } : EngineState).run = X.run from rfl,
        hs] at hc
      exact absurd hc (by simp)
    · rw [show resolve X.run.current OutcomeClass.guardrail_breach =
          Target.Aborted from rfl] at hc
      simp [EngineState.moveTo] at hc
  | LowConfidence score threshold =>
    exfalso
    simp only [stepOutcome] at hc
    unfold stepLoop at hc
    split at hc
    · rw [show resolve X.run.current OutcomeClass.low_confidence =
          Target.node X.run.current from rfl, moveTo_node_status] at hc
      rw [show ({ X with
            loops := Function.update X.loops X.run.current
              (X.loops X.run.current + 1) } : EngineState).run = X.run from rfl,
        hs] at hc
      exact absurd hc (by simp)
    · rw [show resolve X.run.current OutcomeClass.guardrail_breach =
          Target.Aborted from rfl] at hc
      simp [EngineState.moveTo] at hc
  | TransientFailure cause =>
    exfalso
    simp only [stepOutcome] at hc
    split at hc
    · rw [show ({ X with
            retries := Function.update X.retries X.run.current
              (X.retries X.run.current + 1) } : EngineState).run = X.run from rfl,
        hs] at hc
      exact absurd hc (by simp)
    · simp at hc

/-- C8: for every run, terminal status Completed is reachable only by a
Success outcome at the Export node — any supervisor step that sets
status Completed starts at Export with a success-class outcome — and the
success edge of every non-Export node goes to the next node in canonical
order, never to Completed. -/
theorem completed_only_via_export_success (cfg : Config) :
    (∀ now es o c,
      es.run.status = RunStatus.Running →
      (step cfg now es o c).run.status = RunStatus.Completed →
      es.run.current = Node.Export ∧ o.toClass = OutcomeClass.success) ∧
      (∀ n, n ≠ Node.Export →
        resolve n OutcomeClass.success ≠ Target.Completed ∧
          resolve n OutcomeClass.success = nextNode n) := by
  constructor
  · intro now es o c h1 hc
    unfold step at hc
    rw [if_pos h1] at hc
    by_cases h2 : es.totalUnits + c.units ≤ cfg.runBudget
    · rw [if_pos h2] at hc
      split at hc
      · simp at hc
      · simp at hc
      · next o' heq =>
        have ho := invoke_ok_eq _ _ _ _ heq
        subst ho
        have hres := stepOutcome_completed cfg now (es.charge c) o'
          (by rw [charge_run]; exact h1) hc
        rw [charge_run] at hres
        exact hres
    · rw [if_neg h2] at hc
      simp at hc
  · intro n hn
    refine ⟨?_, rfl⟩
    cases n <;> first | exact absurd rfl hn | decide

theorem completed_only_via_export_success_witness :
    (Sample.esExport.run.current = Node.Export ∧
        (Outcome.Success "done" 1 [] []).toClass = OutcomeClass.success) ∧
      (resolve Node.Research OutcomeClass.success ≠ Target.Completed ∧
        resolve Node.Research OutcomeClass.success = nextNode Node.Research) :=
  ⟨(completed_only_via_export_success Sample.cfg0).1 6 Sample.esExport
      (Outcome.Success "done" 1 [] []) Sample.cost1 rfl (by decide),
    (completed_only_via_export_success Sample.cfg0).2 Node.Research
      (by decide)⟩

end Engine

namespace Web

/-- C9: for every query string that is empty or consists only of
whitespace, performSearch sets the result list to the empty list and
returns without issuing any network request, leaving the loading and
error state unchanged; for every non-blank query it issues exactly one
POST request, with limit 20 and hybrid weights bm25 0.4, vector 0.4,
rerank 0.2. -/
theorem performSearch_blank_and_request :
    (∀ q f st fetched, jsTrim q = "" →
      (performSearch q f st fetched).1.results = [] ∧
        (performSearch q f st fetched).1.loading = st.loading ∧
        (performSearch q f st fetched).1.error = st.error ∧
        (performSearch q f st fetched).2 = []) ∧
      (∀ q f st fetched, jsTrim q ≠ "" →
        (performSearch q f st fetched).2 =
          [{ query := q, filters := f, limit := 20, bm25Weight := 4 / 10
             vectorWeight := 4 / 10, rerankWeight := 2 / 10 }]) := by
  constructor
  · intro q f st fetched h
    unfold performSearch
    rw [if_pos h]
    exact ⟨rfl, rfl, rfl, rfl⟩
  · intro q f st fetched h
    unfold performSearch
    rw [if_neg h]
    cases fetched <;> rfl

theorem performSearch_blank_and_request_witness :
    ((performSearch "   " Sample.filters0 Sample.searchState0
          (FetchOutcome.ok none)).1.results = [] ∧
        (performSearch "   " Sample.filters0 Sample.searchState0
          (FetchOutcome.ok none)).1.loading = Sample.searchState0.loading ∧
        (performSearch "   " Sample.filters0 Sample.searchState0
          (FetchOutcome.ok none)).1.error = Sample.searchState0.error ∧
        (performSearch "   " Sample.filters0 Sample.searchState0
          (FetchOutcome.ok none)).2 = []) ∧
      (performSearch "ai" Sample.filters0 Sample.searchState0
          (FetchOutcome.ok none)).2 =
        [{ query := "ai", filters := Sample.filters0, limit := 20
           bm25Weight := 4 / 10, vectorWeight := 4 / 10
           rerankWeight := 2 / 10 }] :=
  ⟨performSearch_blank_and_request.1 "   " Sample.filters0 Sample.searchState0
      (FetchOutcome.ok none) (by decide),
    performSearch_blank_and_request.2 "ai" Sample.filters0 Sample.searchState0
      (FetchOutcome.ok none) (by decide)⟩

theorem toFixed1_zero : toFixed1 0 = "0.0" := by
  unfold toFixed1
  rw [show ⌊(0 : ℚ) * 10 + 1 / 2⌋ = (0 : ℤ) from by norm_num]
  decide

theorem renderScoreText_zero : renderScoreText (some 0) = "0.0" := by
  simp only [renderScoreText, toFixed1_zero]
  decide

/-- C10 counterexample: a score of exactly 0 is not rendered identically
to an absent score — the card text for 0 is 0.0 (toFixed of 0 is the
truthy string 0.0, so the N/A fallback does not fire), while an absent
score renders N/A. -/
theorem score_zero_not_rendered_as_absent :
    renderScoreCard (some 0) ≠ renderScoreCard none ∧
      renderScoreText (some 0) = "0.0" ∧
      renderScoreText none = "N/A" := by
  refine ⟨?_, renderScoreText_zero, rfl⟩
  intro hcontra
  have ht : (renderScoreCard (some 0)).text = (renderScoreCard none).text := by
    rw [hcontra]
  simp only [renderScoreCard, renderScoreText_zero] at ht
  exact absurd ht (by decide)

/-- C10 (amended): getScoreColor returns gray when the score is absent
or exactly 0, green when it is at least 8, yellow when it is at least 6
and below 8, and red otherwise; consequently a score of exactly 0 shares
the absent score's gray color and missing progress bar, but its card
text renders as 0.0 while only an absent score renders N/A. -/
theorem getScoreColor_and_zero_rendering :
    getScoreColor none = "gray" ∧
      getScoreColor (some 0) = "gray" ∧
      (∀ s : ℚ, 8 ≤ s → getScoreColor (some s) = "green") ∧
      (∀ s : ℚ, 6 ≤ s → s < 8 → getScoreColor (some s) = "yellow") ∧
      (∀ s : ℚ, s ≠ 0 → s < 6 → getScoreColor (some s) = "red") ∧
      renderScoreCard (some 0) =
        { text := "0.0", color := "gray", hasBar := false } ∧
      renderScoreCard none =
        { text := "N/A", color := "gray", hasBar := false } := by
  refine ⟨rfl, by decide, ?_, ?_, ?_, ?_, rfl⟩
  · intro s h8
    simp only [getScoreColor]
    rw [if_neg (by intro he; rw [he] at h8; norm_num at h8), if_pos h8]
  · intro s h6 h8
    simp only [getScoreColor]
    rw [if_neg (by intro he; rw [he] at h6; norm_num at h6),
      if_neg (not_le.mpr h8), if_pos h6]
  · intro s hne h6
    simp only [getScoreColor]
    rw [if_neg hne, if_neg (not_le.mpr (h6.trans (by norm_num))),
      if_neg (not_le.mpr h6)]
  · simp only [renderScoreCard, ScoreCard.mk.injEq]
    exact ⟨renderScoreText_zero, by decide, by decide⟩

theorem getScoreColor_and_zero_rendering_witness :
    getScoreColor (some 9) = "green" ∧
      getScoreColor (some 7) = "yellow" ∧
      getScoreColor (some 5) = "red" :=
  ⟨getScoreColor_and_zero_rendering.2.2.1 9 (by norm_num),
    getScoreColor_and_zero_rendering.2.2.2.1 7 (by norm_num) (by norm_num),
    getScoreColor_and_zero_rendering.2.2.2.2.1 5 (by norm_num) (by norm_num)⟩

end Web


